import Mathlib

/-!
Shallow embedding of `src/index.ts` of donedgardo/build-reporter: a GitHub
Action that reports CI builds and deployment-status transitions to a remote
build-tracking service, then maps the HTTP response to outputs or a failure.

The embedding models one invocation as a pure function of the resolved
configuration (the values returned by `core.getInput`, after the library's
whitespace trimming) and the remote HTTP response.  The observable effects
of a run are the ordered `core.setOutput` calls and the optional
`core.setFailed` message produced by the top-level catch.
-/

namespace BuildReporter

/-- Resolved configuration of one invocation: the seven inputs read at the
top of `run()` via `core.getInput` (`src/index.ts` lines 20-26).  Absent
inputs resolve to the empty string. -/
structure Config where
  apiKey : String
  apiUrl : String
  serviceId : String
  action : String
  buildId : String
  environment : String
  status : String
  deriving DecidableEq, Repr

/-- Parsed JSON response body, as read through the `BuildResponse` and
`ErrorResponse` interfaces (`src/index.ts` lines 6-16): `buildId` and the
`deployments` record are read as declared success-shape fields, while the
`error` field is read defensively (`error?.error`), so it is optional here.
A JSON object record is a list of key/value pairs with unique keys. -/
structure ResponseBody where
  buildId : String
  deployments : List (String × String)
  error : Option String
  deriving DecidableEq, Repr

/-- Typed HTTP response as returned by `postJson` / `patchJson`: a numeric
status code and the parsed body. -/
structure HttpResponse where
  statusCode : Nat
  result : ResponseBody
  deriving DecidableEq, Repr

/-- The single outbound HTTP request an invocation builds (method, full URL,
JSON object body of string fields). -/
structure Request where
  method : String
  url : String
  body : List (String × String)
  deriving DecidableEq, Repr

/-- Observable effects of one invocation: the `core.setOutput` calls in
order, and the `core.setFailed` message when the top-level catch fired. -/
structure RunEffects where
  outputs : List (String × String)
  failed : Option String
  deriving DecidableEq, Repr

/-- A run that threw: `core.setFailed` with the message, no outputs. -/
def fails (m : String) : RunEffects :=
  { outputs := [], failed := some m }

/-- JavaScript property access `record[key]` on a unique-key string record:
the value at the key, when present. -/
def recordGet (r : List (String × String)) (k : String) : Option String :=
  match r with
  | [] => none
  | (k', v) :: rest => if k' = k then some v else recordGet rest k

/-- JavaScript `x || d` for an optionally-present string `x`: the string
when present and non-empty (truthy), else the default.  Mirrors
`error?.error || msg` and `result.deployments[environment] || status`. -/
def jsOrElse (x : Option String) (d : String) : String :=
  match x with
  | some s => if s = "" then d else s
  | none => d

/-- Lower-case hex digit of a value below 16, as used by `JSON.stringify`
escapes. -/
def hexDigit (n : Nat) : Char :=
  if n < 10 then Char.ofNat (48 + n) else Char.ofNat (87 + n)

/-- Escape of one character inside a JSON string literal, as performed by
JavaScript `JSON.stringify`. -/
def jsonEscapeChar (c : Char) : String :=
  if c = '"' then "\\\""
  else if c = '\\' then "\\\\"
  else if c = '\x08' then "\\b"
  else if c = '\x09' then "\\t"
  else if c = '\x0a' then "\\n"
  else if c = '\x0c' then "\\f"
  else if c = '\x0d' then "\\r"
  else if c.toNat < 32 then
    "\\u00" ++ String.singleton (hexDigit (c.toNat / 16)) ++
      String.singleton (hexDigit (c.toNat % 16))
  else String.singleton c

/-- JavaScript `JSON.stringify` on a string value. -/
def jsonStringifyString (s : String) : String :=
  "\"" ++ String.join (s.toList.map jsonEscapeChar) ++ "\""

/-- JavaScript `JSON.stringify` on a string-to-string record (insertion
order), as used for `JSON.stringify(result.deployments)`.  The empty record
serializes to "\x7b\x7d". -/
def jsonStringifyRecord (r : List (String × String)) : String :=
  "\x7b" ++
    String.intercalate ","
      (r.map (fun p => jsonStringifyString p.1 ++ ":" ++ jsonStringifyString p.2)) ++
    "\x7d"

/-- The fixed status enumeration `validStatuses` (`src/index.ts` line 70). -/
def validStatuses : List String :=
  ["deploying", "deployed", "error", "cancelled"]

/-- Modelled from the spec and the `@actions/core` contract: `core.getInput`
with `required: true` throws `Input required and not supplied: ` plus the name when
the input resolves to the empty string (spec section 4.1: required fields
fail fast before any network activity). -/
def requiredInputMsg (name : String) : String :=
  "Input required and not supplied: " ++ name

/-- `apiUrl` with its default: `core.getInput("api-url") || "https://gitlaunch.dev"`
(`src/index.ts` line 21). -/
def effectiveApiUrl (cfg : Config) : String :=
  if cfg.apiUrl = "" then "https://gitlaunch.dev" else cfg.apiUrl

/-- `baseUrl` from `src/index.ts` line 35. -/
def baseUrl (cfg : Config) : String :=
  effectiveApiUrl cfg ++ "/api/v1/services/" ++ cfg.serviceId

/-- Response mapping of the `report-build` branch (`src/index.ts` lines
45-58): success iff status code 201 or 200; on success set outputs
`build-id` and `deployment-status` (stringified deployments); otherwise
throw the defensive error read, defaulting to a generic status message. -/
def reportBuildEffects (resp : HttpResponse) : RunEffects :=
  if resp.statusCode = 201 ∨ resp.statusCode = 200 then
    { outputs := [("build-id", resp.result.buildId),
                  ("deployment-status", jsonStringifyRecord resp.result.deployments)],
      failed := none }
  else
    fails (jsOrElse resp.result.error ("Failed with status " ++ toString resp.statusCode))

/-- The `update-status` branch (`src/index.ts` lines 62-101): validate
`environment` non-empty, then `status` non-empty, then `status` in
`validStatuses`; then success iff status code 200, setting outputs
`build-id` and `deployment-status` (`result.deployments[environment] || status`);
otherwise throw the defensive error read, defaulting to a generic status message. -/
def updateStatusEffects (cfg : Config) (resp : HttpResponse) : RunEffects :=
  if cfg.environment = "" then
    fails "environment is required for update-status action"
  else if cfg.status = "" then
    fails "status is required for update-status action"
  else if cfg.status ∉ validStatuses then
    fails ("Invalid status: " ++ cfg.status ++ ". Must be one of: " ++
      String.intercalate ", " validStatuses)
  else if resp.statusCode = 200 then
    { outputs := [("build-id", resp.result.buildId),
                  ("deployment-status",
                    jsOrElse (recordGet resp.result.deployments cfg.environment) cfg.status)],
      failed := none }
  else
    fails (jsOrElse resp.result.error ("Failed with status " ++ toString resp.statusCode))

/-- The `switch (action)` dispatch (`src/index.ts` lines 37-107), including
the default branch's invalid-action error. -/
def dispatch (cfg : Config) (resp : HttpResponse) : RunEffects :=
  if cfg.action = "report-build" then reportBuildEffects resp
  else if cfg.action = "update-status" then updateStatusEffects cfg resp
  else
    fails ("Invalid action: " ++ cfg.action ++ ". Must be \x27report-build\x27 or \x27update-status\x27")

/-- One full invocation: input resolution (required-input checks in source
order: `api-key`, `service-id`, `action`, `build-id`), then dispatch; every
thrown error is converted by the top-level catch into a `setFailed` call
(`src/index.ts` lines 18-115).  `resp` is the remote response to the request
the invocation issues; runs that fail validation never inspect it. -/
def run (cfg : Config) (resp : HttpResponse) : RunEffects :=
  if cfg.apiKey = "" then fails (requiredInputMsg "api-key")
  else if cfg.serviceId = "" then fails (requiredInputMsg "service-id")
  else if cfg.action = "" then fails (requiredInputMsg "action")
  else if cfg.buildId = "" then fails (requiredInputMsg "build-id")
  else dispatch cfg resp

/-- The request the invocation issues over the network, when it issues one:
`none` exactly when a validation failure (or invalid action) stops the run
before `postJson` / `patchJson` is called. -/
def issuedRequest (cfg : Config) : Option Request :=
  if cfg.apiKey = "" ∨ cfg.serviceId = "" ∨ cfg.action = "" ∨ cfg.buildId = "" then none
  else if cfg.action = "report-build" then
    some { method := "POST",
           url := baseUrl cfg ++ "/builds",
           body := [("buildId", cfg.buildId)] }
  else if cfg.action = "update-status" then
    if cfg.environment = "" ∨ cfg.status = "" ∨ cfg.status ∉ validStatuses then none
    else
      some { method := "PATCH",
             url := baseUrl cfg ++ "/builds/" ++ cfg.buildId ++ "/deploy/" ++ cfg.environment,
             body := [("status", cfg.status)] }
  else none

/-! Helper lemmas and concrete fixtures used by the claim theorems. -/

/-- The joined enumeration `validStatuses.join(", ")` is the literal listing
in declaration order. -/
theorem intercalate_validStatuses :
    String.intercalate ", " validStatuses = "deploying, deployed, error, cancelled" := by
  decide

/-- The invalid-status message built by the code equals the literal message
the documentation states. -/
theorem invalid_status_msg (s : String) :
    "Invalid status: " ++ s ++ ". Must be one of: " ++ String.intercalate ", " validStatuses =
      "Invalid status: " ++ s ++ ". Must be one of: deploying, deployed, error, cancelled" := by
  rw [intercalate_validStatuses, String.append_assoc]
  congr 1

/-- A valid `update-status` configuration (the repository test fixture). -/
def okUpdateConfig : Config :=
  { apiKey := "pk_test_key", apiUrl := "https://gitlaunch.io", serviceId := "service123",
    action := "update-status", buildId := "abc123",
    environment := "staging", status := "deployed" }

/-- A 200 response whose deployments record maps staging to deployed. -/
def okUpdateResponse : HttpResponse :=
  { statusCode := 200,
    result := { buildId := "abc123", deployments := [("staging", "deployed")], error := none } }

/-- A 200 response whose deployments record maps staging to the empty
string: the key is present but its value is falsy in JavaScript. -/
def emptyValueResponse : HttpResponse :=
  { statusCode := 200,
    result := { buildId := "abc123", deployments := [("staging", "")], error := none } }

/-- A valid `report-build` configuration (the repository test fixture). -/
def okReportConfig : Config :=
  { apiKey := "pk_test_key", apiUrl := "https://gitlaunch.io", serviceId := "service123",
    action := "report-build", buildId := "abc123",
    environment := "", status := "" }

/-- A 201 created response with an empty deployments record. -/
def createdResponse : HttpResponse :=
  { statusCode := 201,
    result := { buildId := "abc123", deployments := [], error := none } }

/-- A 202 accepted response: inside the 2xx range, but not one of the
success codes the code tests for. -/
def acceptedResponse : HttpResponse :=
  { statusCode := 202,
    result := { buildId := "abc123", deployments := [], error := none } }

/-- A 401 response carrying a remote error message. -/
def unauthorizedResponse : HttpResponse :=
  { statusCode := 401,
    result := { buildId := "", deployments := [], error := some "Invalid API key" } }

/-! Claim theorems. -/

/-- C1 (counterexample): the claim says the `deployment-status` output is
`body.deployments[environment]` whenever that key is present; but with the
key present at the empty-string value, the code (JavaScript `||`) falls back
to the sent status "deployed" instead of emitting the present value "". -/
theorem C1_counterexample :
    recordGet emptyValueResponse.result.deployments "staging" = some "" ∧
    (run okUpdateConfig emptyValueResponse).failed = none ∧
    (run okUpdateConfig emptyValueResponse).outputs =
      [("build-id", "abc123"), ("deployment-status", "deployed")] ∧
    ("deployed" : String) ≠ "" := by
  decide

/-- C1 (amended): for every `update-status` invocation that passes
validation, the issued request is a PATCH to
`apiUrl/api/v1/services/serviceId/builds/buildId/deploy/environment`
with body containing the status; the run succeeds iff the response status
code is exactly 200; and on success it emits `build-id` = the body's
`buildId` and `deployment-status` = the value of `deployments[environment]`
when that key is present with a non-empty value, else the status that was
sent. -/
theorem C1_update_status_contract (cfg : Config) (resp : HttpResponse)
    (hk : cfg.apiKey ≠ "") (hs : cfg.serviceId ≠ "") (hb : cfg.buildId ≠ "")
    (ha : cfg.action = "update-status")
    (he : cfg.environment ≠ "") (hv : cfg.status ∈ validStatuses) :
    issuedRequest cfg =
      some { method := "PATCH",
             url := effectiveApiUrl cfg ++ "/api/v1/services/" ++ cfg.serviceId ++
               "/builds/" ++ cfg.buildId ++ "/deploy/" ++ cfg.environment,
             body := [("status", cfg.status)] } ∧
    ((run cfg resp).failed = none ↔ resp.statusCode = 200) ∧
    (resp.statusCode = 200 →
      (run cfg resp).outputs =
        [("build-id", resp.result.buildId),
         ("deployment-status",
           match recordGet resp.result.deployments cfg.environment with
           | some v => if v = "" then cfg.status else v
           | none => cfg.status)]) := by
  have hst : cfg.status ≠ "" := by
    intro h
    rw [h] at hv
    simp [validStatuses] at hv
  refine ⟨?_, ?_, ?_⟩
  · simp [issuedRequest, baseUrl, hk, hs, hb, ha, he, hst, hv]
  · simp [run, dispatch, updateStatusEffects, fails, hk, hs, hb, ha, he, hst, hv]
    split <;> simp_all
  · intro hsc
    simp [run, dispatch, updateStatusEffects, fails, jsOrElse, hk, hs, hb, ha, he, hst, hv, hsc]

/-- C1 (witness): the amended contract applied to the repository's own test
fixture: environment staging, status deployed, response 200 with
deployments mapping staging to deployed. -/
theorem C1_witness :
    (run okUpdateConfig okUpdateResponse).outputs =
      [("build-id", "abc123"), ("deployment-status", "deployed")] ∧
    (run okUpdateConfig okUpdateResponse).failed = none := by
  have h := C1_update_status_contract okUpdateConfig okUpdateResponse
    (by decide) (by decide) (by decide) (by decide) (by decide) (by decide)
  constructor
  · rw [h.2.2 rfl]
    decide
  · exact h.2.1.mpr rfl

/-- C3: for every `report-build` invocation with non-empty apiKey,
serviceId and buildId, the issued request is a POST to
`apiUrl/api/v1/services/serviceId/builds` with body containing the buildId,
with no validation of environment or status; the run succeeds iff the
response status code is 200 or 201; and on success it emits `build-id` =
the body's `buildId` and `deployment-status` = the JSON serialization of
the body's `deployments` record. -/
theorem C3_report_build_contract (cfg : Config) (resp : HttpResponse)
    (hk : cfg.apiKey ≠ "") (hs : cfg.serviceId ≠ "") (hb : cfg.buildId ≠ "")
    (ha : cfg.action = "report-build") :
    issuedRequest cfg =
      some { method := "POST",
             url := effectiveApiUrl cfg ++ "/api/v1/services/" ++ cfg.serviceId ++ "/builds",
             body := [("buildId", cfg.buildId)] } ∧
    ((run cfg resp).failed = none ↔ (resp.statusCode = 200 ∨ resp.statusCode = 201)) ∧
    ((resp.statusCode = 200 ∨ resp.statusCode = 201) →
      (run cfg resp).outputs =
        [("build-id", resp.result.buildId),
         ("deployment-status", jsonStringifyRecord resp.result.deployments)]) := by
  refine ⟨?_, ?_, ?_⟩
  · simp [issuedRequest, baseUrl, hk, hs, hb, ha]
  · simp [run, dispatch, reportBuildEffects, fails, hk, hs, hb, ha]
    split <;> rename_i h <;> simp <;> tauto
  · intro hsc
    simp [run, dispatch, reportBuildEffects, fails, hk, hs, hb, ha, Or.symm hsc]

/-- C3 (witness): the contract applied at the round-trip of the claim:
status code 201 with buildId abc123 and an empty deployments record yields
outputs build-id abc123 and deployment-status "\x7b\x7d". -/
theorem C3_witness :
    (run okReportConfig createdResponse).outputs =
      [("build-id", "abc123"), ("deployment-status", "\x7b\x7d")] ∧
    (run okReportConfig createdResponse).failed = none ∧
    issuedRequest okReportConfig =
      some { method := "POST",
             url := "https://gitlaunch.io/api/v1/services/service123/builds",
             body := [("buildId", "abc123")] } := by
  have h := C3_report_build_contract okReportConfig createdResponse
    (by decide) (by decide) (by decide) (by decide)
  refine ⟨?_, ?_, ?_⟩
  · rw [h.2.2 (Or.inr rfl)]
    decide
  · exact h.2.1.mpr (Or.inr rfl)
  · rw [h.1]
    decide

/-- C2 (counterexample): status code 202 lies in the 2xx range, yet a
valid `report-build` invocation receiving it is treated as error-shaped:
it fails with the generic message and maps nothing to outputs. -/
theorem C2_counterexample :
    200 ≤ acceptedResponse.statusCode ∧ acceptedResponse.statusCode < 300 ∧
    (run okReportConfig acceptedResponse).failed = some "Failed with status 202" ∧
    (run okReportConfig acceptedResponse).outputs = [] := by
  decide

/-- C2 (amended): a response is treated as success-shaped (mapped to
outputs with no failure) iff its status code is in the selected action's
success set — 200 or 201 for `report-build`, exactly 200 for
`update-status` — not the whole 2xx range; every other response is treated
as error-shaped. -/
theorem C2_success_by_status_code (cfg : Config) (resp : HttpResponse)
    (hk : cfg.apiKey ≠ "") (hs : cfg.serviceId ≠ "") (hb : cfg.buildId ≠ "") :
    (cfg.action = "report-build" →
      (((run cfg resp).failed = none ∧ (run cfg resp).outputs ≠ []) ↔
        (resp.statusCode = 200 ∨ resp.statusCode = 201))) ∧
    (cfg.action = "update-status" → cfg.environment ≠ "" → cfg.status ∈ validStatuses →
      (((run cfg resp).failed = none ∧ (run cfg resp).outputs ≠ []) ↔
        resp.statusCode = 200)) := by
  constructor
  · intro ha
    by_cases h : resp.statusCode = 201 ∨ resp.statusCode = 200
    · simp [run, dispatch, reportBuildEffects, fails, hk, hs, hb, ha, h]
      tauto
    · simp [run, dispatch, reportBuildEffects, fails, hk, hs, hb, ha, h]
      tauto
  · intro ha he hv
    have hst : cfg.status ≠ "" := by
      intro h
      rw [h] at hv
      simp [validStatuses] at hv
    by_cases h : resp.statusCode = 200
    · simp [run, dispatch, updateStatusEffects, fails, hk, hs, hb, ha, he, hst, hv, h]
    · simp [run, dispatch, updateStatusEffects, fails, hk, hs, hb, ha, he, hst, hv, h]

/-- C2 (witness): the amended property applied at a valid `report-build`
invocation with a 201 response: it is success-shaped. -/
theorem C2_witness :
    (run okReportConfig createdResponse).failed = none ∧
    (run okReportConfig createdResponse).outputs ≠ [] :=
  ((C2_success_by_status_code okReportConfig createdResponse
    (by decide) (by decide) (by decide)).1 rfl).mpr (Or.inr rfl)

/-- C4: for every `update-status` invocation with non-empty environment
and a non-empty status outside the enumeration, the run fails with exactly
the invalid-status message (enumeration in declaration order, comma-space
separated) and issues no network request. -/
theorem C4_invalid_status_fails (cfg : Config) (resp : HttpResponse)
    (hk : cfg.apiKey ≠ "") (hs : cfg.serviceId ≠ "") (hb : cfg.buildId ≠ "")
    (ha : cfg.action = "update-status")
    (he : cfg.environment ≠ "") (hst : cfg.status ≠ "")
    (hv : cfg.status ∉ validStatuses) :
    (run cfg resp).failed =
      some ("Invalid status: " ++ cfg.status ++
        ". Must be one of: deploying, deployed, error, cancelled") ∧
    (run cfg resp).outputs = [] ∧
    issuedRequest cfg = none := by
  refine ⟨?_, ?_, ?_⟩
  · simp [run, dispatch, updateStatusEffects, fails, hk, hs, hb, ha, he, hst, hv]
    rw [← invalid_status_msg]
  · simp [run, dispatch, updateStatusEffects, fails, hk, hs, hb, ha, he, hst, hv]
  · simp [issuedRequest, hk, hs, hb, ha, hv]

/-- C4 (witness): the repository's own invalid-status test fixture. -/
theorem C4_witness :
    (run { okUpdateConfig with status := "invalid-status" } okUpdateResponse).failed =
      some "Invalid status: invalid-status. Must be one of: deploying, deployed, error, cancelled" ∧
    issuedRequest { okUpdateConfig with status := "invalid-status" } = none := by
  have h := C4_invalid_status_fails { okUpdateConfig with status := "invalid-status" }
    okUpdateResponse (by decide) (by decide) (by decide) (by decide) (by decide)
    (by decide) (by decide)
  exact ⟨by rw [h.1]; decide, h.2.2⟩

/-- C5: for every `update-status` invocation, an empty environment fails
with exactly the environment-required message, and a non-empty environment
with an empty status fails with exactly the status-required message; in
both cases no network request is issued. -/
theorem C5_missing_env_or_status_fails (cfg : Config) (resp : HttpResponse)
    (hk : cfg.apiKey ≠ "") (hs : cfg.serviceId ≠ "") (hb : cfg.buildId ≠ "")
    (ha : cfg.action = "update-status") :
    (cfg.environment = "" →
      (run cfg resp).failed = some "environment is required for update-status action" ∧
      issuedRequest cfg = none) ∧
    (cfg.environment ≠ "" → cfg.status = "" →
      (run cfg resp).failed = some "status is required for update-status action" ∧
      issuedRequest cfg = none) := by
  constructor
  · intro he
    constructor
    · simp [run, dispatch, updateStatusEffects, fails, hk, hs, hb, ha, he]
    · simp [issuedRequest, hk, hs, hb, ha, he]
  · intro he hst
    constructor
    · simp [run, dispatch, updateStatusEffects, fails, hk, hs, hb, ha, he, hst]
    · simp [issuedRequest, hk, hs, hb, ha, he, hst]

/-- C5 (witness): the repository's missing-environment test fixture. -/
theorem C5_witness :
    (run { okUpdateConfig with environment := "" } okUpdateResponse).failed =
      some "environment is required for update-status action" ∧
    issuedRequest { okUpdateConfig with environment := "" } = none :=
  (C5_missing_env_or_status_fails { okUpdateConfig with environment := "" }
    okUpdateResponse (by decide) (by decide) (by decide) (by decide)).1 rfl

/-- C6: for every invocation whose resolved action is neither
`report-build` nor `update-status` (and that passed the required-input
checks), the run fails with exactly the invalid-action message and issues
no network request. -/
theorem C6_invalid_action_fails (cfg : Config) (resp : HttpResponse)
    (hk : cfg.apiKey ≠ "") (hs : cfg.serviceId ≠ "") (hb : cfg.buildId ≠ "")
    (hane : cfg.action ≠ "")
    (ha1 : cfg.action ≠ "report-build") (ha2 : cfg.action ≠ "update-status") :
    (run cfg resp).failed =
      some ("Invalid action: " ++ cfg.action ++
        ". Must be \x27report-build\x27 or \x27update-status\x27") ∧
    (run cfg resp).outputs = [] ∧
    issuedRequest cfg = none := by
  refine ⟨?_, ?_, ?_⟩
  · simp [run, dispatch, fails, hk, hs, hb, hane, ha1, ha2]
  · simp [run, dispatch, fails, hk, hs, hb, hane, ha1, ha2]
  · simp [issuedRequest, hk, hs, hb, hane, ha1, ha2]

/-- C6 (witness): the repository's invalid-action test fixture. -/
theorem C6_witness :
    (run { okReportConfig with action := "invalid-action" } createdResponse).failed =
      some "Invalid action: invalid-action. Must be \x27report-build\x27 or \x27update-status\x27" ∧
    issuedRequest { okReportConfig with action := "invalid-action" } = none := by
  have h := C6_invalid_action_fails { okReportConfig with action := "invalid-action" }
    createdResponse (by decide) (by decide) (by decide) (by decide) (by decide) (by decide)
  exact ⟨by rw [h.1]; decide, h.2.2⟩

/-- C7: for every invocation of either action whose response status code is
not a success code for that action, the run fails with the body's `error`
field when it is present and non-empty, and otherwise with exactly the
generic failed-with-status message. -/
theorem C7_failure_message (cfg : Config) (resp : HttpResponse)
    (hk : cfg.apiKey ≠ "") (hs : cfg.serviceId ≠ "") (hb : cfg.buildId ≠ "") :
    (cfg.action = "report-build" → ¬(resp.statusCode = 200 ∨ resp.statusCode = 201) →
      (run cfg resp).failed =
        some (match resp.result.error with
          | some e => if e = "" then "Failed with status " ++ toString resp.statusCode else e
          | none => "Failed with status " ++ toString resp.statusCode)) ∧
    (cfg.action = "update-status" → cfg.environment ≠ "" → cfg.status ∈ validStatuses →
      resp.statusCode ≠ 200 →
      (run cfg resp).failed =
        some (match resp.result.error with
          | some e => if e = "" then "Failed with status " ++ toString resp.statusCode else e
          | none => "Failed with status " ++ toString resp.statusCode)) := by
  constructor
  · intro ha hne
    push_neg at hne
    obtain ⟨h200, h201⟩ := hne
    cases hre : resp.result.error with
    | none =>
        simp [run, dispatch, reportBuildEffects, fails, jsOrElse, hk, hs, hb, ha,
          h200, h201, hre]
    | some e =>
        simp [run, dispatch, reportBuildEffects, fails, jsOrElse, hk, hs, hb, ha,
          h200, h201, hre]
  · intro ha he hv hsc
    have hst : cfg.status ≠ "" := by
      intro h
      rw [h] at hv
      simp [validStatuses] at hv
    cases hre : resp.result.error with
    | none =>
        simp [run, dispatch, updateStatusEffects, fails, jsOrElse, hk, hs, hb, ha,
          he, hst, hv, hsc, hre]
    | some e =>
        simp [run, dispatch, updateStatusEffects, fails, jsOrElse, hk, hs, hb, ha,
          he, hst, hv, hsc, hre]

/-- C7 (witness): the repository's 401 test fixture: the remote error text
is reported verbatim. -/
theorem C7_witness :
    (run okReportConfig unauthorizedResponse).failed = some "Invalid API key" := by
  have h := (C7_failure_message okReportConfig unauthorizedResponse
    (by decide) (by decide) (by decide)).1 rfl (by decide)
  rw [h]
  decide

/-- In the `report-build` response mapping, a failed run has set no
outputs. -/
theorem reportBuildEffects_no_outputs (resp : HttpResponse) :
    ((reportBuildEffects resp).failed).isSome → (reportBuildEffects resp).outputs = [] := by
  unfold reportBuildEffects fails
  split <;> simp

/-- In the `update-status` branch, a failed run has set no outputs. -/
theorem updateStatusEffects_no_outputs (cfg : Config) (resp : HttpResponse) :
    ((updateStatusEffects cfg resp).failed).isSome →
      (updateStatusEffects cfg resp).outputs = [] := by
  unfold updateStatusEffects fails
  split_ifs <;> simp

/-- Across the action dispatch, a failed run has set no outputs. -/
theorem dispatch_no_outputs (cfg : Config) (resp : HttpResponse) :
    ((dispatch cfg resp).failed).isSome → (dispatch cfg resp).outputs = [] := by
  unfold dispatch fails
  split_ifs
  · exact reportBuildEffects_no_outputs resp
  · exact updateStatusEffects_no_outputs cfg resp
  · simp

/-- C8: for every invocation and response, a run that ends in failure
(validation error, remote rejection, or any thrown error) has produced no
outputs: neither `build-id` nor `deployment-status` is set. -/
theorem C8_no_outputs_after_failure (cfg : Config) (resp : HttpResponse) :
    ((run cfg resp).failed).isSome → (run cfg resp).outputs = [] := by
  unfold run fails
  split_ifs <;> first | simp | exact dispatch_no_outputs cfg resp

/-- C8 (witness): the 401 remote-rejection fixture fails and sets no
outputs. -/
theorem C8_witness :
    (run okReportConfig unauthorizedResponse).outputs = [] :=
  C8_no_outputs_after_failure okReportConfig unauthorizedResponse (by decide)

/-- C9: for `report-build`, the `environment` and `status` inputs are
ignored: two configurations differing only in those two fields issue the
identical request and, given the same remote response, produce identical
effects (same outputs and same success or failure outcome). -/
theorem C9_report_build_ignores_env_status (cfg : Config) (e₁ s₁ e₂ s₂ : String)
    (resp : HttpResponse) (ha : cfg.action = "report-build") :
    run { cfg with environment := e₁, status := s₁ } resp =
      run { cfg with environment := e₂, status := s₂ } resp ∧
    issuedRequest { cfg with environment := e₁, status := s₁ } =
      issuedRequest { cfg with environment := e₂, status := s₂ } := by
  constructor
  · simp [run, dispatch, ha]
  · simp [issuedRequest, baseUrl, effectiveApiUrl, ha]

/-- C9 (witness): a `report-build` invocation with environment staging and
status deployed behaves identically to one with both fields empty. -/
theorem C9_witness :
    run { okReportConfig with environment := "staging", status := "deployed" }
        createdResponse =
      run { okReportConfig with environment := "", status := "" } createdResponse :=
  (C9_report_build_ignores_env_status okReportConfig "staging" "deployed" "" ""
    createdResponse rfl).1

/-- C10: for `update-status`, the validation checks run in the fixed order
environment non-empty, then status non-empty, then status membership, and
the reported failure is that of the first failing check; in particular when
environment is empty the environment message is reported regardless of
status (so with both empty, the environment message wins). -/
theorem C10_validation_order (cfg : Config) (resp : HttpResponse)
    (hk : cfg.apiKey ≠ "") (hs : cfg.serviceId ≠ "") (hb : cfg.buildId ≠ "")
    (ha : cfg.action = "update-status") :
    (cfg.environment = "" →
      (run cfg resp).failed = some "environment is required for update-status action") ∧
    (cfg.environment ≠ "" → cfg.status = "" →
      (run cfg resp).failed = some "status is required for update-status action") ∧
    (cfg.environment ≠ "" → cfg.status ≠ "" → cfg.status ∉ validStatuses →
      (run cfg resp).failed =
        some ("Invalid status: " ++ cfg.status ++
          ". Must be one of: deploying, deployed, error, cancelled")) := by
  refine ⟨?_, ?_, ?_⟩
  · intro he
    simp [run, dispatch, updateStatusEffects, fails, hk, hs, hb, ha, he]
  · intro he hst
    simp [run, dispatch, updateStatusEffects, fails, hk, hs, hb, ha, he, hst]
  · intro he hst hv
    simp [run, dispatch, updateStatusEffects, fails, hk, hs, hb, ha, he, hst, hv]
    rw [← invalid_status_msg]

/-- C10 (witness): with environment and status both empty, the failure is
the environment message, not the status message. -/
theorem C10_witness :
    (run { okUpdateConfig with environment := "", status := "" } okUpdateResponse).failed =
      some "environment is required for update-status action" :=
  (C10_validation_order { okUpdateConfig with environment := "", status := "" }
    okUpdateResponse (by decide) (by decide) (by decide) (by decide)).1 rfl

end BuildReporter
